import Mathlib

/-!
Shallow embedding of the grocereez-api receipt pipeline
(`src/services/ocrService.js`, the `CustomFieldMapper`, and the
`AIDataParser` quality metrics), with theorems checking the
natural-language specification against the code.

Modelling conventions: JavaScript numbers are rationals (`ℚ`);
`null`/`undefined` fields are `Option`; values that can be `NaN` or
`undefined` at runtime use the `JNum` type; code that can throw a
`TypeError` is embedded in `Except String`.
-/

attribute [local semireducible] Rat.add Rat.sub Rat.mul Rat.inv Rat.ofScientific

namespace Grocereez

/-- Whitespace characters recognised by JavaScript `String.prototype.trim`
(restricted to the ASCII ones that can occur in our data). -/
def isWSChar (c : Char) : Bool :=
  c = ' ' ∨ c = '\t' ∨ c = '\n' ∨ c = '\r' ∨ c = '\x0b' ∨ c = '\x0c'

/-- Trim whitespace from both ends of a character list (JS `trim`). -/
def trimChars (l : List Char) : List Char :=
  ((l.dropWhile isWSChar).reverse.dropWhile isWSChar).reverse

/-- JS `String.prototype.trim`. -/
def jsTrim (s : String) : String := String.mk (trimChars s.toList)

/-- JS `String.prototype.toLowerCase` (ASCII). -/
def jsToLower (s : String) : String := String.mk (s.toList.map Char.toLower)

/-- Decides whether the first list is a prefix of the second. -/
def isPrefixList : List Char → List Char → Bool
  | [], _ => true
  | _ :: _, [] => false
  | a :: as, b :: bs => a == b && isPrefixList as bs

/-- Decides whether `pat` occurs as a contiguous substring of the second
list (JS `String.prototype.includes`). -/
def containsList (pat : List Char) : List Char → Bool
  | [] => isPrefixList pat []
  | c :: rest => isPrefixList pat (c :: rest) || containsList pat rest

/-- JS `hay.includes(pat)`. -/
def containsStr (hay pat : String) : Bool := containsList pat.toList hay.toList

/-- JS `Math.round`: round half towards positive infinity. -/
def jsRound (q : ℚ) : ℤ := ⌊q + 1/2⌋

/-- JS truthiness of an optional string: `undefined`, `null` and `""` are
falsy. -/
def truthyS : Option String → Bool
  | some s => s ≠ ""
  | none => false

/-- JS truthiness of an optional number: `undefined`, `null` and `0` are
falsy. -/
def truthyQ : Option ℚ → Bool
  | some q => q ≠ 0
  | none => false

/-- JS `a || b` on optional strings. -/
def jsOrS (a b : Option String) : Option String := if truthyS a then a else b

/-- JS `a || d` where `a` is an optional number and `d` a concrete number
default. -/
def jsOrQ (a : Option ℚ) (d : ℚ) : ℚ :=
  match a with
  | some q => if q = 0 then d else q
  | none => d

/-- JS `a || null` on an optional string: empty strings collapse to null. -/
def jsOrNull (a : Option String) : Option String := if truthyS a then a else none

/-- Equality of `Except` values is decidable componentwise. -/
instance exceptDecEq {ε α : Type} [DecidableEq ε] [DecidableEq α] : DecidableEq (Except ε α) :=
  fun x y =>
    match x, y with
    | .ok a, .ok b => if h : a = b then isTrue (by rw [h]) else isFalse (by simp [h])
    | .error a, .error b => if h : a = b then isTrue (by rw [h]) else isFalse (by simp [h])
    | .ok _, .error _ => isFalse (by simp)
    | .error _, .ok _ => isFalse (by simp)

/-- A JavaScript number value that may be `NaN` or `undefined`. -/
inductive JNum where
  | num (q : ℚ)
  | nan
  | undef
deriving DecidableEq

/-- True exactly for an actual number. -/
def JNum.isNum : JNum → Bool
  | .num _ => true
  | _ => false

/-- Value of a list of decimal digit characters. -/
def digitsToNat (l : List Char) : ℕ := l.foldl (fun n c => 10 * n + (c.toNat - 48)) 0

/-- JS `parseFloat` restricted to strings over the alphabet `[0-9.+-]`
(the only strings `parseAmount` feeds it; the cleaned strings cannot
contain an exponent marker or `Infinity`). Returns `none` for `NaN`. -/
def jsParseFloat (cs : List Char) : Option ℚ :=
  let neg : Bool := cs.head? = some '-'
  let rest : List Char := if cs.head? = some '-' ∨ cs.head? = some '+' then cs.tail else cs
  let intPart := rest.takeWhile Char.isDigit
  let rest2 := rest.dropWhile Char.isDigit
  let fracPart : List Char := if rest2.head? = some '.' then rest2.tail.takeWhile Char.isDigit else []
  if intPart.isEmpty && fracPart.isEmpty then none
  else
    let mag : ℚ := (digitsToNat intPart : ℚ) + (digitsToNat fracPart : ℚ) / (10 ^ fracPart.length)
    some (if neg then -mag else mag)

/-- The currency symbols removed by `parseAmount`'s first `replace`. -/
def currencyChar (c : Char) : Bool :=
  c = '$' ∨ c = '€' ∨ c = '£' ∨ c = '¥' ∨ c = '₹'

/-- Embeds `OCRService.parseAmount` on string input: the `!amount`
short-circuit, strip currency symbols, strip everything outside `[0-9.-]`,
`parseFloat`, and map `NaN` to `null`. -/
def parseAmount (amount : String) : Option ℚ :=
  if amount = "" then none
  else
    let noCurrency := amount.toList.filter (fun c => !(currencyChar c))
    let clean := noCurrency.filter (fun c => c.isDigit || c = '.' || c = '-')
    jsParseFloat clean

/-- Embeds `OCRService.parseAmount` applied to a raw numeric provider field:
provider fields are numbers, `String(q)` renders them as a plain decimal,
and the strip-then-`parseFloat` pipeline reproduces the value, so on
numeric input the function reduces to the `!amount` falsiness check
(`0`, `null` and `undefined` give `null`). -/
def parseAmountNum : Option ℚ → Option ℚ
  | none => none
  | some q => if q = 0 then none else some q

/-! ### ocrService.js data model -/

/-- One entry of `result.receipt.items` as built by
`OCRService.parseTabScannerResponse`. -/
structure ParsedItem where
  name : String
  quantity : ℚ
  unitPrice : Option ℚ
  totalPrice : ℚ
  category : Option String
  confidence : ℚ
deriving DecidableEq

/-- The `result.receipt` object of the standardized OCR result. -/
structure ParsedReceipt where
  merchant : Option String
  address : Option String
  phone : Option String
  date : Option String
  time : Option String
  total : Option ℚ
  tax : Option ℚ
  subtotal : Option ℚ
  items : List ParsedItem
deriving DecidableEq

/-- The standardized OCR result produced by `parseTabScannerResponse` and
consumed by `validateOCRResult`. -/
structure OCRResult where
  success : Bool
  confidence : ℚ
  rawText : String
  receipt : ParsedReceipt
deriving DecidableEq

/-- A raw TabScanner line item (`result.lineItems[i]`). -/
structure TSLineItem where
  desc : Option String
  descClean : Option String
  qty : Option ℚ
  price : Option ℚ
  lineTotal : Option ℚ
  unit : Option String
  confidence : Option ℚ
deriving DecidableEq

/-- A raw TabScanner summary line (`result.summaryItems[i]`). -/
structure SummaryItem where
  lineType : Option String
  desc : Option String
  lineTotal : Option ℚ
deriving DecidableEq

/-- The structured address breakdown (`result.addressNorm`). -/
structure AddressNorm where
  number : Option String
  street : Option String
  city : Option String
  state : Option String
  postcode : Option String
deriving DecidableEq

/-- The provider's top-level `result` object. -/
structure TSResult where
  establishment : Option String
  address : Option String
  phoneNumber : Option String
  date : Option String
  dateISO : Option String
  total : Option ℚ
  tax : Option ℚ
  subTotal : Option ℚ
  lineItems : Option (List TSLineItem)
  establishmentConfidence : Option ℚ
  totalConfidence : Option ℚ
  dateConfidence : Option ℚ
  addressNorm : Option AddressNorm
  taxes : Option (List ℚ)
  summaryItems : Option (List SummaryItem)
deriving DecidableEq

/-- The raw TabScanner response handed to the parser: the payload may or
may not carry a top-level `result` object. -/
structure TabScannerData where
  result : Option TSResult
deriving DecidableEq

/-- A TSResult with every field absent (a present-but-empty `result`). -/
def emptyTSResult : TSResult :=
  { establishment := none, address := none, phoneNumber := none, date := none,
    dateISO := none, total := none, tax := none, subTotal := none,
    lineItems := none, establishmentConfidence := none, totalConfidence := none,
    dateConfidence := none, addressNorm := none, taxes := none, summaryItems := none }

/-- Models JS number-to-string for the quantities that occur here: integers
render as their decimal digits (non-integer quantities are not exercised by
any theorem and render via their reduced fraction). -/
def jsNumToString (q : ℚ) : String :=
  if q.den = 1 then toString q.num else toString q.num ++ "/" ++ toString q.den

/-- Models `Number.prototype.toFixed(2)` for the rational amounts that
occur here: round half away from zero to two decimals, then render. -/
def toFixed2 (q : ℚ) : String :=
  let sign := if q < 0 then "-" else ""
  let cents : ℤ := ⌊|q| * 100 + 1/2⌋
  let whole := cents / 100
  let frac := cents % 100
  let fracStr := if frac < 10 then "0" ++ toString frac else toString frac
  sign ++ toString whole ++ "." ++ fracStr

/-- Embeds `OCRService.generateRawTextSummary`: the human-readable text
rendering synthesized from the parsed fields. -/
def generateRawTextSummary (receipt : ParsedReceipt) : String :=
  let text := ""
  let text := if truthyS receipt.merchant then text ++ receipt.merchant.getD "" ++ "\n" else text
  let text := if truthyS receipt.address then text ++ receipt.address.getD "" ++ "\n" else text
  let text := if truthyS receipt.phone then text ++ "Phone: " ++ receipt.phone.getD "" ++ "\n" else text
  let text := text ++ "\n"
  let text := if truthyS receipt.date then text ++ "Date: " ++ receipt.date.getD "" ++ "\n" else text
  let text := text ++ "\n"
  let text := receipt.items.foldl (fun t item =>
      let qty := if item.quantity > 1 then jsNumToString item.quantity ++ "x " else ""
      t ++ qty ++ item.name ++ (if item.totalPrice ≠ 0 then " $" ++ toFixed2 item.totalPrice else "") ++ "\n")
    text
  let text := text ++ "\n"
  let text := if truthyQ receipt.subtotal then text ++ "Subtotal: $" ++ toFixed2 (receipt.subtotal.getD 0) ++ "\n" else text
  let text := if truthyQ receipt.tax then text ++ "Tax: $" ++ toFixed2 (receipt.tax.getD 0) ++ "\n" else text
  let text := if truthyQ receipt.total then text ++ "Total: $" ++ toFixed2 (receipt.total.getD 0) ++ "\n" else text
  text

/-- A parsed receipt with every field null and no items (the initialized
defaults of the parser's `result.receipt` object). -/
def emptyParsedReceipt : ParsedReceipt :=
  { merchant := none, address := none, phone := none, date := none,
    time := none, total := none, tax := none, subtotal := none, items := [] }

/-- Embeds `OCRService.parseTabScannerResponse`: parse the raw TabScanner payload
into the standardized OCR result. On a well-typed payload the surrounding
`try` block cannot throw, so the `catch` path is unreachable; absence of the
top-level `result` object flips `success` to `false` and leaves the
initialized defaults in place. -/
def parseTabScannerResponse (tabScannerData : TabScannerData) : OCRResult :=
  match tabScannerData.result with
  | none =>
      { success := false, confidence := 0, rawText := "", receipt := emptyParsedReceipt }
  | some receipt =>
      let date := if truthyS receipt.dateISO then
          some (((receipt.dateISO.getD "").splitOn "T").headD "")
        else receipt.date
      let time := if truthyS receipt.dateISO then
          ((receipt.dateISO.getD "").splitOn "T").get? 1
        else none
      let items := ((receipt.lineItems.getD []).filter
          (fun item => truthyS item.descClean && truthyQ item.lineTotal)).map
        (fun item =>
          { name := (jsOrS item.descClean (jsOrS item.desc (some "Unknown Item"))).getD ""
            quantity := jsOrQ item.qty 1
            unitPrice := parseAmountNum item.price
            totalPrice := (parseAmountNum item.lineTotal).getD 0
            category := none
            confidence := 1 })
      let confidenceScores :=
        [receipt.establishmentConfidence, receipt.totalConfidence, receipt.dateConfidence].filterMap id
      let confidence : ℚ :=
        if confidenceScores.length > 0 then
          confidenceScores.foldl (fun a b => a + b) 0 / (confidenceScores.length : ℚ)
        else 0.9
      let rec0 : ParsedReceipt :=
        { merchant := jsOrNull receipt.establishment
          address := jsOrNull receipt.address
          phone := jsOrNull receipt.phoneNumber
          date := date
          time := time
          total := some ((parseAmountNum receipt.total).getD 0)
          tax := some ((parseAmountNum receipt.tax).getD 0)
          subtotal := some ((parseAmountNum receipt.subTotal).getD 0)
          items := items }
      { success := true, confidence := confidence,
        rawText := generateRawTextSummary rec0, receipt := rec0 }

/-! ### ocrService.js validator -/

/-- Embeds `ocrResult.receipt.total && ocrResult.receipt.total > 0`. -/
def hasTotal (ocrResult : OCRResult) : Bool :=
  match ocrResult.receipt.total with
  | some t => decide (t ≠ 0) && decide (0 < t)
  | none => false

/-- Embeds `ocrResult.receipt.merchant && ocrResult.receipt.merchant.trim().length > 0`. -/
def hasMerchant (ocrResult : OCRResult) : Bool :=
  match ocrResult.receipt.merchant with
  | some m => decide (m ≠ "") && decide ((jsTrim m).length > 0)
  | none => false

/-- Embeds `ocrResult.rawText && ocrResult.rawText.length > 10`. -/
def hasRawText (ocrResult : OCRResult) : Bool :=
  decide (ocrResult.rawText ≠ "") && decide (ocrResult.rawText.length > 10)

/-- Embeds `ocrResult.receipt.items && ocrResult.receipt.items.length > 0`. -/
def hasItems (ocrResult : OCRResult) : Bool :=
  decide (ocrResult.receipt.items.length > 0)

/-- The validator's verdict object. -/
structure ValidationResult where
  isValid : Bool
  errors : List String
  warnings : List String
deriving DecidableEq

/-- The confidence check pushed first: a warning exactly when
`ocrResult.confidence < 0.5`. -/
def lowConfWarning (ocrResult : OCRResult) : List String :=
  if ocrResult.confidence < 0.5 then ["Low OCR confidence score"] else []

/-- Embeds `OCRService.validateOCRResult`. -/
def validateOCRResult (ocrResult : OCRResult) : ValidationResult :=
  if !ocrResult.success then
    { isValid := false, errors := ["OCR processing failed"], warnings := [] }
  else if !hasTotal ocrResult && !hasMerchant ocrResult && !hasRawText ocrResult && !hasItems ocrResult then
    { isValid := false, errors := ["No useful receipt data could be extracted"],
      warnings := lowConfWarning ocrResult }
  else
    { isValid := true, errors := [],
      warnings := lowConfWarning ocrResult
        ++ (if !hasTotal ocrResult then ["No monetary amounts detected"] else [])
        ++ (if !hasMerchant ocrResult then ["Merchant name not found"] else [])
        ++ (if !hasItems ocrResult then ["No line items extracted"] else []) }

/-! ### CustomFieldMapper -/

/-- The apostrophe character (written via its code point). -/
def aposChar : Char := Char.ofNat 39

/-- The double-quote character (written via its code point). -/
def quoteChar : Char := Char.ofNat 34

/-- The keys of `CustomFieldMapper.brandNormalization`; every key maps to
the same canonical replacement "Trader Joes". -/
def brandPatterns : List String :=
  ["trader joes", "trader joe" ++ String.mk [aposChar] ++ "s", "traderjoes"]

/-- The loop in `normalizeBrandName`: does the lower-cased, trimmed brand
contain one of the alias keys? -/
def matchesBrandAlias (rawBrand : String) : Bool :=
  let normalized := jsTrim (jsToLower rawBrand)
  brandPatterns.any (fun pattern => containsStr normalized pattern)

/-- Embeds the fallback of `normalizeBrandName`:
`rawBrand.replace(quote-class regex, '').trim()`. -/
def stripQuotes (rawBrand : String) : String :=
  jsTrim (String.mk (rawBrand.toList.filter (fun c => c ≠ aposChar && c ≠ quoteChar)))

/-- Embeds `CustomFieldMapper.normalizeBrandName`. -/
def normalizeBrandName (rawBrand : String) : String :=
  if matchesBrandAlias rawBrand then "Trader Joes" else stripQuotes rawBrand

/-- A JS regex word character (`\w`). -/
def isWordChar (c : Char) : Bool := c.isAlphanum || c = '_'

/-- A `\b` boundary holds after a digit run when the next character is not
a word character (or the string ends). -/
def boundaryAfter : List Char → Bool
  | [] => true
  | c :: _ => !(isWordChar c)

/-- Whether the previous character (if any) is a word character; a `\b`
boundary before a digit requires that it is not. -/
def prevIsWord : Option Char → Bool
  | some p => isWordChar p
  | none => false

/-- Scanner for `address.match(/\b(\d+)\b/)`: the first maximal digit run
delimited by word boundaries on both sides. -/
def streetNumScan : Option Char → List Char → Option String
  | _, [] => none
  | prev, c :: rest =>
    let here : Option String :=
      if c.isDigit && !(prevIsWord prev) then
        if boundaryAfter (rest.dropWhile Char.isDigit) then
          some (String.mk (c :: rest.takeWhile Char.isDigit))
        else none
      else none
    match here with
    | some z => some z
    | none => streetNumScan (some c) rest

/-- Embeds `CustomFieldMapper.extractStreetNumber`. -/
def extractStreetNumber (address : String) : Option String :=
  streetNumScan none address.toList

/-- Match attempt of `/\b(\d{5}(?:-\d{4})?)\b/` at a maximal digit run:
a run of exactly five digits, optionally continued by `-` and exactly four
digits, with a word boundary after the match. -/
def zipFromRun (run after : List Char) : Option String :=
  if run.length = 5 then
    match after with
    | '-' :: t =>
        let d4 := t.takeWhile Char.isDigit
        if d4.length = 4 && boundaryAfter (t.dropWhile Char.isDigit) then
          some (String.mk (run ++ '-' :: d4))
        else some (String.mk run)
    | _ => if boundaryAfter after then some (String.mk run) else none
  else none

/-- Scanner for `address.match(/\b(\d{5}(?:-\d{4})?)\b/)`. -/
def zipScan : Option Char → List Char → Option String
  | _, [] => none
  | prev, c :: rest =>
    let here : Option String :=
      if c.isDigit && !(prevIsWord prev) then
        zipFromRun (c :: rest.takeWhile Char.isDigit) (rest.dropWhile Char.isDigit)
      else none
    match here with
    | some z => some z
    | none => zipScan (some c) rest

/-- Embeds `CustomFieldMapper.extractZipCode`. -/
def extractZipCode (address : String) : Option String := zipScan none address.toList

/-- Embeds the first replace of `extractStreetName`: remove a leading digit
run and any following whitespace, when the string starts with a digit. -/
def dropLeadingNumber (l : List Char) : List Char :=
  match l with
  | c :: _ => if c.isDigit then (l.dropWhile Char.isDigit).dropWhile isWSChar else l
  | [] => l

/-- After the matched parenthetical the regex consumes `\s*,?\s*`. -/
def consumeWsCommaWs (l : List Char) : List Char :=
  let l1 := l.dropWhile isWSChar
  match l1 with
  | ',' :: t => t.dropWhile isWSChar
  | _ => l1

/-- Match `\s\(\d+\)\s*,?\s*` at the head of the list, returning the
remainder after the match. -/
def parenMarkMatch : List Char → Option (List Char)
  | c :: '(' :: rest =>
      if isWSChar c then
        let ds := rest.takeWhile Char.isDigit
        if ds.isEmpty then none
        else
          match rest.dropWhile Char.isDigit with
          | ')' :: tail => some (consumeWsCommaWs tail)
          | _ => none
      else none
  | _ => none

/-- Embeds the second replace of `extractStreetName` on the comma-free
street part: the greedy `[^,]*` selects the last position at which the
parenthetical store-identifier pattern matches; with no match the string
is unchanged. -/
def parenMarkDrop : List Char → Option (List Char)
  | [] => none
  | c :: rest =>
      match parenMarkDrop rest with
      | some r => some r
      | none => parenMarkMatch (c :: rest)

/-- JS `split(',')` over a character list: "a,b" gives ["a", "b"] and ""
gives [""]. -/
def splitOnComma : List Char → List (List Char)
  | [] => [[]]
  | c :: rest =>
      let r := splitOnComma rest
      if c = ',' then [] :: r
      else
        match r with
        | [] => [[c]]
        | h :: t => (c :: h) :: t

/-- Embeds `CustomFieldMapper.extractStreetName`. -/
def extractStreetName (address : String) : Option String :=
  let parts := splitOnComma address.toList
  match parts with
  | [] => none
  | p0 :: _ =>
      let streetPart := (jsTrim (String.mk p0)).toList
      let l1 := dropLeadingNumber streetPart
      let l2 := match parenMarkDrop l1 with
        | some r => r
        | none => l1
      let streetName := jsTrim (String.mk l2)
      if streetName = "" then none else some streetName

/-- The component fields produced by `CustomFieldMapper.parseAddress`. -/
structure AddressParts where
  street_number : Option String
  street_name : Option String
  city : Option String
  state : Option String
  zipcode : Option String
deriving DecidableEq

/-- Embeds `CustomFieldMapper.parseAddress`. -/
def parseAddress (result : TSResult) : AddressParts :=
  let addressNorm := result.addressNorm.getD ⟨none, none, none, none, none⟩
  let rawAddress := result.address.getD ""
  { street_number := if truthyS addressNorm.number then addressNorm.number else extractStreetNumber rawAddress
    street_name := if truthyS addressNorm.street then addressNorm.street else extractStreetName rawAddress
    city := jsOrNull addressNorm.city
    state := jsOrNull addressNorm.state
    zipcode := if truthyS addressNorm.postcode then addressNorm.postcode else extractZipCode rawAddress }

/-- Check for a leading `YYYY-MM-DD`. -/
def isoDateStart : List Char → Bool
  | a :: b :: c :: d :: '-' :: e :: f :: '-' :: g :: h :: _ =>
      a.isDigit && b.isDigit && c.isDigit && d.isDigit &&
      e.isDigit && f.isDigit && g.isDigit && h.isDigit
  | _ => false

/-- Embeds `CustomFieldMapper.formatDate`. The `new Date` round trip is modelled
for ISO-dated inputs, where `toISOString().split('T')[0]` returns the
leading date; any other input is treated via the `catch` branch
(`dateString.split(' ')[0] || dateString`). No claim depends on the exact
`Date` behaviour. -/
def formatDate : Option String → Option String
  | none => none
  | some s =>
      if isoDateStart s.toList then some (String.mk (s.toList.take 10))
      else
        let h := (s.splitOn " ").headD ""
        some (if h = "" then s else h)

/-- Match `\d{2}:\d{2}:\d{2}` at the head of the list. -/
def timeMatchAt : List Char → Option (List Char)
  | a :: b :: ':' :: m1 :: m2 :: ':' :: s1 :: s2 :: _ =>
      if a.isDigit && b.isDigit && m1.isDigit && m2.isDigit && s1.isDigit && s2.isDigit then
        some [a, b, ':', m1, m2, ':', s1, s2]
      else none
  | _ => none

/-- Match `\d{1}:\d{2}:\d{2}` at the head of the list. -/
def timeMatchAtOne : List Char → Option (List Char)
  | a :: ':' :: m1 :: m2 :: ':' :: s1 :: s2 :: _ =>
      if a.isDigit && m1.isDigit && m2.isDigit && s1.isDigit && s2.isDigit then
        some [a, ':', m1, m2, ':', s1, s2]
      else none
  | _ => none

/-- Scanner for the `catch` branch of `formatTime`:
`match(/(\d{1,2}:\d{2}:\d{2})/)` with the greedy hour first. -/
def timeScan : List Char → Option String
  | [] => none
  | c :: rest =>
      match timeMatchAt (c :: rest) with
      | some m => some (String.mk m)
      | none =>
          match timeMatchAtOne (c :: rest) with
          | some m => some (String.mk m)
          | none => timeScan rest

/-- Embeds `CustomFieldMapper.formatTime`, modelled like `formatDate`: for ISO
`YYYY-MM-DDTHH:MM:SS` inputs `new Date(...).toTimeString()` starts with the
clock time (modelled in UTC); other inputs take the `catch` branch, which
scans for `(\d{1,2}:\d{2}:\d{2})`. No claim depends on this. -/
def formatTime : Option String → Option String
  | none => none
  | some s =>
      if isoDateStart s.toList then
        match timeMatchAt (s.toList.drop 11) with
        | some m => some (String.mk m)
        | none => some "00:00:00"
      else timeScan s.toList

/-- Embeds `CustomFieldMapper.calculateOverallConfidence`: mean of the available
per-field confidences, defaulting to 0.85 when none are present. -/
def calculateOverallConfidence (result : TSResult) : ℚ :=
  let confidenceScores :=
    [result.establishmentConfidence, result.totalConfidence, result.dateConfidence].filterMap id
  if confidenceScores.length = 0 then 0.85
  else confidenceScores.foldl (fun a b => a + b) 0 / (confidenceScores.length : ℚ)

/-- The predicate of the `taxItems` filter:
`item.lineType === 'Tax' || item.desc.toLowerCase().includes('tax')`. The
second disjunct throws a `TypeError` when `desc` is absent. -/
def isTaxLine (item : SummaryItem) : Except String Bool :=
  if item.lineType = some "Tax" then .ok true
  else
    match item.desc with
    | none => .error "TypeError: Cannot read properties of undefined (reading toLowerCase)"
    | some d => .ok (containsStr (jsToLower d) "tax")

/-- Embeds `summaryItems.filter(...)` with the throwing predicate. -/
def filterTaxItems : List SummaryItem → Except String (List SummaryItem)
  | [] => .ok []
  | item :: rest =>
      match isTaxLine item, filterTaxItems rest with
      | .error e, _ => .error e
      | .ok _, .error e => .error e
      | .ok keep, .ok tail => .ok (if keep then item :: tail else tail)

/-- The fallback of a tax slot: `taxItems[i] ? taxItems[i].lineTotal : 0`.
It is `undefined` when the selected tax line carries no `lineTotal`. -/
def taxSlotFallback (taxItems : List SummaryItem) (i : ℕ) : JNum :=
  match taxItems.get? i with
  | some item =>
      match item.lineTotal with
      | some q => .num q
      | none => .undef
  | none => .num 0

/-- One output slot of `parseTaxes`:
`taxes[i] || (taxItems[i] ? taxItems[i].lineTotal : 0)`. -/
def taxSlot (taxes : List ℚ) (taxItems : List SummaryItem) (i : ℕ) : JNum :=
  match taxes.get? i with
  | some q => if q = 0 then taxSlotFallback taxItems i else .num q
  | none => taxSlotFallback taxItems i

/-- Embeds `CustomFieldMapper.parseTaxes` (`result.taxes || []` and
`result.summaryItems || []`). -/
def parseTaxes (result : TSResult) : Except String (JNum × JNum) :=
  match filterTaxItems (result.summaryItems.getD []) with
  | .error e => .error e
  | .ok taxItems =>
      .ok (taxSlot (result.taxes.getD []) taxItems 0, taxSlot (result.taxes.getD []) taxItems 1)

/-- Embeds `CustomFieldMapper.categorizeItem`: called on `descClean || desc`; the
code reads `itemName.toLowerCase()` without a guard, so it throws a
`TypeError` when that value is `undefined`. -/
def categorizeItem (itemName : Option String) : Except String String :=
  match itemName with
  | none => .error "TypeError: Cannot read properties of undefined (reading toLowerCase)"
  | some itemName =>
      let name := jsToLower itemName
      .ok (
        if ["apple", "berries", "broccoli", "spinach", "onion", "potato", "lime",
            "avocado", "cauliflower"].any (containsStr name) then "produce"
        else if ["milk", "coconut milk"].any (containsStr name) then "dairy"
        else if ["beans", "oil"].any (containsStr name) then "pantry"
        else if ["sushi", "wrap", "curry"].any (containsStr name) then "prepared_food"
        else "other")

/-- Embeds `CustomFieldMapper.generateItemTypeCode`: ordered keyword rules over
`(item.descClean || item.desc || '').toLowerCase()`, first match wins,
default MISC. The `index` parameter of the source is unused there and is
omitted. -/
def generateItemTypeCode (item : TSLineItem) : String :=
  let name := jsToLower ((jsOrS item.descClean (jsOrS item.desc (some ""))).getD "")
  if ["produce", "fruit", "vegetable", "apple", "banana", "berries", "broccoli",
      "spinach", "onion"].any (containsStr name) then "PROD"
  else if ["milk", "yogurt", "cheese", "dairy"].any (containsStr name) then "DAIRY"
  else if ["bread", "bakery"].any (containsStr name) then "BAKERY"
  else if ["meat", "beef", "chicken", "fish"].any (containsStr name) then "MEAT"
  else if ["beans", "oil", "pasta", "rice"].any (containsStr name) then "PANTRY"
  else if ["bottle", "deposit", "fee"].any (containsStr name) then "FEE"
  else "MISC"

/-- JS `a || d` on an optional number, with a `JNum` default. -/
def jsOrN (a : Option ℚ) (d : JNum) : JNum :=
  match a with
  | some q => if q = 0 then d else .num q
  | none => d

/-- JS division `a / d` where the numerator may be `undefined` and the
denominator is a nonzero number: `undefined / d` is `NaN`. (A zero
denominator cannot occur here because of the `qty || 1` default.) -/
def jsDivN (a : Option ℚ) (d : ℚ) : JNum :=
  match a with
  | some q => .num (q / d)
  | none => .nan

/-- One mapped line item (an element of `mapItems`' output). -/
structure MappedItem where
  item_name : Option String
  item_type_code : String
  item_price : JNum
  quantity : ℚ
  unit_price : JNum
  unit : String
  category : String
  confidence : ℚ
deriving DecidableEq

/-- Embeds the body of the `lineItems.map` in `CustomFieldMapper.mapItems`. -/
def mapItem (item : TSLineItem) : Except String MappedItem :=
  match categorizeItem (jsOrS item.descClean item.desc) with
  | .error e => .error e
  | .ok category =>
      .ok { item_name := jsOrS item.descClean item.desc
            item_type_code := generateItemTypeCode item
            item_price := jsOrN item.lineTotal (.num 0)
            quantity := jsOrQ item.qty 1
            unit_price := jsOrN item.price (jsDivN item.lineTotal (jsOrQ item.qty 1))
            unit := (jsOrS item.unit (some "each")).getD ""
            category := category
            confidence := jsOrQ item.confidence 1 }

/-- Embeds `CustomFieldMapper.mapItems` (`result.lineItems || []`, then map). -/
def mapItems (result : TSResult) : Except String (List MappedItem) :=
  (result.lineItems.getD []).mapM mapItem

/-- The custom database structure produced by `mapToCustomStructure`. -/
structure MappedData where
  brand_name : String
  street_number : Option String
  street_name : Option String
  city : Option String
  state : Option String
  zipcode : Option String
  date_field : Option String
  time_field : Option String
  tax_field_1 : JNum
  tax_field_2 : JNum
  total_price_field : JNum
  items : List MappedItem
  original_merchant : Option String
  phone : Option String
  raw_address : Option String
  confidence_score : ℚ
deriving DecidableEq

/-- Embeds `CustomFieldMapper.mapToCustomStructure`: throws when the
payload has no `rawData?.result`; otherwise maps the provider result into
the custom structure, propagating the `TypeError` that
`parseTaxes`/`mapItems` can raise on malformed entries (evaluated in
source order: `parseAddress`, then `parseTaxes`, then `mapItems`). -/
def mapToCustomStructure (rawData : Option TabScannerData) : Except String MappedData :=
  match rawData.bind (fun d => d.result) with
  | none => .error "No TabScanner result data found"
  | some result =>
      match parseTaxes result with
      | .error e => .error e
      | .ok taxData =>
          match mapItems result with
          | .error e => .error e
          | .ok itemsData =>
              let addressData := parseAddress result
              .ok { brand_name := normalizeBrandName (result.establishment.getD "")
                    street_number := addressData.street_number
                    street_name := addressData.street_name
                    city := addressData.city
                    state := addressData.state
                    zipcode := addressData.zipcode
                    date_field := formatDate (jsOrS result.dateISO result.date)
                    time_field := formatTime (jsOrS result.dateISO result.date)
                    tax_field_1 := taxData.1
                    tax_field_2 := taxData.2
                    total_price_field := jsOrN result.total (.num 0)
                    items := itemsData
                    original_merchant := result.establishment
                    phone := result.phoneNumber
                    raw_address := result.address
                    confidence_score := calculateOverallConfidence result }

/-! ### AIDataParser quality metrics -/

/-- The fields of the enriched result read by
`AIDataParser.calculateQualityMetrics`. -/
structure AIResultView where
  store_name : Option String
  normalized_name : Option String
  transaction_date : Option String
  grand_total : Option ℚ
  item_count : ℕ
  store_type : Option String
  ocr_confidence : ℚ
deriving DecidableEq

/-- The six truthiness checks pushed by `calculateQualityMetrics`. -/
def qualityChecks (result : AIResultView) : List Bool :=
  [truthyS result.store_name,
   truthyS result.normalized_name,
   truthyS result.transaction_date,
   (match result.grand_total with | some g => decide (0 < g) | none => false),
   decide (result.item_count > 0),
   truthyS result.store_type]

/-- Embeds `AIDataParser.calculateQualityMetrics`: count the truthy
completeness checks, take the rounded integer percentage, set the AI
confidence to `min(95, completeness+10)`, then overwrite it with the
rounded average of that and `ocr_confidence * 100`. Returns
`(data_completeness, ai_confidence)`. -/
def calculateQualityMetrics (result : AIResultView) : ℤ × ℤ :=
  let checks : List Bool := qualityChecks result
  let completenessScore := (checks.filter id).length
  let totalFields := checks.length
  let data_completeness := jsRound (((completenessScore : ℚ) / (totalFields : ℚ)) * 100)
  let aiConfidence1 : ℤ := min 95 (data_completeness + 10)
  let aiConfidence2 := jsRound (((aiConfidence1 : ℚ) + result.ocr_confidence * 100) / 2)
  (data_completeness, aiConfidence2)

/-! ### Specification-side formulas and named sample inputs -/

/-- Specification formula, following the spec's words: dataCompleteness is
the integer percentage of true checks out of six. -/
def specDataCompleteness (checks : List Bool) : ℤ :=
  jsRound (((checks.filter id).length : ℚ) / 6 * 100)

/-- Specification formula, following the spec's words:
`overallConfidence = round((min(95, dataCompleteness + 10) + ocrConfidence * 100) / 2)`. -/
def specOverallConfidence (dc : ℤ) (ocr : ℚ) : ℤ :=
  jsRound ((((min 95 (dc + 10) : ℤ) : ℚ) + ocr * 100) / 2)

/-- The spec's Milk example: a parsed receipt whose only content is one
item (name Milk, line total 3), all else null. -/
def milkOnlyResult : OCRResult :=
  { success := true, confidence := 0.9, rawText := ""
    receipt := { emptyParsedReceipt with
      items := [{ name := "Milk", quantity := 1, unitPrice := none, totalPrice := 3,
                  category := none, confidence := 1 }] } }

/-- A provider payload whose result carries only `address: "X"`; its parse
has a nonempty raw text of length five. -/
def addrOnlyData : TabScannerData := ⟨some { emptyTSResult with address := some "X" }⟩

/-- A successful OCR result with low confidence and no receipt content. -/
def lowConfResult : OCRResult :=
  { success := true, confidence := 0.3, rawText := "", receipt := emptyParsedReceipt }

/-- A failed OCR result with low confidence. -/
def failedLowConfResult : OCRResult :=
  { success := false, confidence := 0.3, rawText := "", receipt := emptyParsedReceipt }

/-- A line item with a description but no price, lineTotal or quantity. -/
def pricelessItem : TSLineItem :=
  { desc := none, descClean := some "Mystery Item", qty := none, price := none,
    lineTotal := none, unit := none, confidence := none }

/-- A well-formed line item with a line total but no unit price. -/
def oliveOilItem : TSLineItem :=
  { desc := none, descClean := some "Olive Oil", qty := some 1, price := none,
    lineTotal := some 9.99, unit := none, confidence := none }

/-- The record `mapItem` produces for `oliveOilItem`. -/
def oliveOilMapped : MappedItem :=
  { item_name := some "Olive Oil", item_type_code := "PANTRY", item_price := .num 9.99,
    quantity := 1, unit_price := .num 9.99, unit := "each", category := "pantry",
    confidence := 1 }

/-- A provider result with three tax entries (the spec's tax example). -/
def threeTaxResult : TSResult := { emptyTSResult with taxes := some [0.22, 0.22, 0.05] }

/-- A provider result whose summary has a line-total-less non-tax line
followed by a tax line carrying 0.62: only the tax-tagged line needs a
line total for the tax fields to come out numeric. -/
def mixedSummaryResult : TSResult :=
  { emptyTSResult with
      summaryItems := some [{ lineType := some "Subtotal", desc := some "SUBTOTAL", lineTotal := none },
        { lineType := some "Tax", desc := some "TAX", lineTotal := some 0.62 }] }

/-- A provider payload whose one line item has neither `desc` nor
`descClean` (but does have a line total). -/
def missingDescData : Option TabScannerData :=
  some ⟨some { emptyTSResult with
      lineItems := some [{ desc := none, descClean := none, qty := none, price := none,
                           lineTotal := some 5, unit := none, confidence := none }] }⟩

/-- A provider payload carrying only a total. -/
def totalOnlyData : Option TabScannerData :=
  some ⟨some { emptyTSResult with total := some 96.49 }⟩

/-- The record `mapToCustomStructure` produces for `totalOnlyData`. -/
def totalOnlyMapped : MappedData :=
  { brand_name := "", street_number := none, street_name := none, city := none, state := none,
    zipcode := none, date_field := none, time_field := none,
    tax_field_1 := .num 0, tax_field_2 := .num 0, total_price_field := .num 96.49,
    items := [], original_merchant := none, phone := none, raw_address := none,
    confidence_score := 0.85 }

/-- A brand string containing a double quote between "joe" and "s": the
alias table matches only after the quote character has been stripped. -/
def quotedBrand : String := "trader joe" ++ String.mk [quoteChar] ++ "s"

/-- An enrichment view with five of six checks true and OCR confidence
0.9 (the spec's quality-metrics example). -/
def qualityExample : AIResultView :=
  { store_name := some "Trader Joes", normalized_name := some "Trader Joes",
    transaction_date := none, grand_total := some 96.49, item_count := 2,
    store_type := some "grocery", ocr_confidence := 0.9 }

/-! ### Supporting lemmas -/

theorem length_dropWhile_le {α : Type} (p : α → Bool) (l : List α) :
    (l.dropWhile p).length ≤ l.length := by
  induction l with
  | nil => exact Nat.le_refl _
  | cons a t ih =>
      by_cases h : p a = true
      · rw [List.dropWhile_cons, if_pos h]
        exact Nat.le_succ_of_le ih
      · rw [List.dropWhile_cons, if_neg h]

theorem dropWhile_dropWhile {α : Type} (p : α → Bool) (l : List α) :
    (l.dropWhile p).dropWhile p = l.dropWhile p := by
  induction l with
  | nil => rfl
  | cons a t ih =>
      by_cases h : p a = true
      · rw [List.dropWhile_cons, if_pos h]
        exact ih
      · rw [List.dropWhile_cons, if_neg h, List.dropWhile_cons, if_neg h]

theorem mem_of_mem_dropWhile {α : Type} {p : α → Bool} {a : α} {l : List α}
    (h : a ∈ l.dropWhile p) : a ∈ l := by
  induction l with
  | nil => simp at h
  | cons b t ih =>
      by_cases hb : p b = true
      · rw [List.dropWhile_cons, if_pos hb] at h
        exact List.mem_cons_of_mem _ (ih h)
      · rw [List.dropWhile_cons, if_neg hb] at h
        exact h

theorem exists_append_dropWhile {α : Type} (p : α → Bool) (l : List α) :
    ∃ t, t ++ l.dropWhile p = l := by
  induction l with
  | nil => exact ⟨[], rfl⟩
  | cons a t ih =>
      by_cases h : p a = true
      · obtain ⟨s, hs⟩ := ih
        exact ⟨a :: s, by rw [List.dropWhile_cons, if_pos h, List.cons_append, hs]⟩
      · exact ⟨[], by rw [List.dropWhile_cons, if_neg h, List.nil_append]⟩

theorem filter_eq_self_of_mem {α : Type} {p : α → Bool} {l : List α}
    (h : ∀ a ∈ l, p a = true) : l.filter p = l := by
  induction l with
  | nil => rfl
  | cons a t ih =>
      rw [List.filter_cons, if_pos (h a (List.mem_cons_self a t)),
        ih (fun x hx => h x (List.mem_cons_of_mem _ hx))]

theorem takeWhile_nil_of_none {α : Type} (p : α → Bool) (l : List α)
    (h : ∀ a ∈ l, p a = false) : l.takeWhile p = [] := by
  cases l with
  | nil => rfl
  | cons a t => simp [List.takeWhile_cons, h a (List.mem_cons_self a t)]

theorem dropWhile_self_of_none {α : Type} (p : α → Bool) (l : List α)
    (h : ∀ a ∈ l, p a = false) : l.dropWhile p = l := by
  cases l with
  | nil => rfl
  | cons a t => simp [List.dropWhile_cons, h a (List.mem_cons_self a t)]

theorem mem_of_mem_tail {α : Type} {a : α} {l : List α} (h : a ∈ l.tail) : a ∈ l := by
  cases l with
  | nil => simp at h
  | cons b t => exact List.mem_cons_of_mem b h

theorem trimLeft_of_trim (l : List Char) :
    (trimChars l).dropWhile isWSChar = trimChars l := by
  have hA : (l.dropWhile isWSChar).dropWhile isWSChar = l.dropWhile isWSChar :=
    dropWhile_dropWhile _ _
  obtain ⟨t, ht⟩ := exists_append_dropWhile isWSChar (l.dropWhile isWSChar).reverse
  have hsplit : l.dropWhile isWSChar = trimChars l ++ t.reverse := by
    conv_lhs => rw [← List.reverse_reverse (l.dropWhile isWSChar), ← ht]
    rw [List.reverse_append]
    rfl
  rcases hB : trimChars l with _ | ⟨b, bs⟩
  · rfl
  · rw [hB] at hsplit
    have hb : isWSChar b = false := by
      by_contra hcon
      have hb' : isWSChar b = true := by
        cases hw : isWSChar b
        · exact absurd hw hcon
        · rfl
      have hA' := hA
      rw [hsplit, List.cons_append, List.dropWhile_cons, if_pos hb'] at hA'
      have hlen := length_dropWhile_le isWSChar (bs ++ t.reverse)
      rw [hA'] at hlen
      simp at hlen
    rw [List.dropWhile_cons, if_neg (by rw [hb]; exact Bool.false_ne_true)]

theorem trimRight_of_trim (l : List Char) :
    ((trimChars l).reverse.dropWhile isWSChar).reverse = trimChars l := by
  have h1 : (trimChars l).reverse = (l.dropWhile isWSChar).reverse.dropWhile isWSChar := by
    unfold trimChars
    rw [List.reverse_reverse]
  rw [h1, dropWhile_dropWhile]
  rfl

theorem trimChars_idem (l : List Char) : trimChars (trimChars l) = trimChars l := by
  show (((trimChars l).dropWhile isWSChar).reverse.dropWhile isWSChar).reverse = trimChars l
  rw [trimLeft_of_trim]
  exact trimRight_of_trim l

theorem mem_of_mem_trimChars {c : Char} {l : List Char} (h : c ∈ trimChars l) : c ∈ l := by
  unfold trimChars at h
  rw [List.mem_reverse] at h
  have h1 := mem_of_mem_dropWhile h
  rw [List.mem_reverse] at h1
  exact mem_of_mem_dropWhile h1

theorem stripQuotes_eq (s : String) :
    stripQuotes s
      = String.mk (trimChars (s.toList.filter (fun c => c ≠ aposChar && c ≠ quoteChar))) := rfl

theorem stripQuotes_idem (s : String) : stripQuotes (stripQuotes s) = stripQuotes s := by
  rw [stripQuotes_eq s, stripQuotes_eq]
  congr 1
  have htl : (String.mk (trimChars (s.toList.filter (fun c => c ≠ aposChar && c ≠ quoteChar)))).toList
      = trimChars (s.toList.filter (fun c => c ≠ aposChar && c ≠ quoteChar)) := rfl
  rw [htl]
  have hmem : ∀ a ∈ trimChars (s.toList.filter (fun c => c ≠ aposChar && c ≠ quoteChar)),
      (decide (a ≠ aposChar) && decide (a ≠ quoteChar)) = true :=
    fun a ha => (List.mem_filter.mp (mem_of_mem_trimChars ha)).2
  rw [filter_eq_self_of_mem hmem, trimChars_idem]

theorem jsParseFloat_none {cs : List Char} (h : ∀ c ∈ cs, c.isDigit = false) :
    jsParseFloat cs = none := by
  have hrest : ∀ c ∈ (if cs.head? = some '-' ∨ cs.head? = some '+' then cs.tail else cs),
      c.isDigit = false := by
    split
    · exact fun c hc => h c (mem_of_mem_tail hc)
    · exact h
  have hrtail : ∀ c ∈ (if cs.head? = some '-' ∨ cs.head? = some '+' then cs.tail else cs).tail,
      c.isDigit = false := fun c hc => hrest c (mem_of_mem_tail hc)
  simp only [jsParseFloat]
  rw [dropWhile_self_of_none _ _ hrest, takeWhile_nil_of_none _ _ hrest,
    takeWhile_nil_of_none _ _ hrtail]
  simp

theorem parseAmount_none_of_no_digit (s : String) (h : ∀ c ∈ s.toList, c.isDigit = false) :
    parseAmount s = none := by
  simp only [parseAmount]
  split
  · rfl
  · exact jsParseFloat_none
      (fun c hc => h c (List.mem_of_mem_filter (List.mem_of_mem_filter hc)))

theorem hasTotal_update (r : OCRResult) (c : ℚ) :
    hasTotal { r with confidence := c } = hasTotal r := rfl

theorem hasMerchant_update (r : OCRResult) (c : ℚ) :
    hasMerchant { r with confidence := c } = hasMerchant r := rfl

theorem hasRawText_update (r : OCRResult) (c : ℚ) :
    hasRawText { r with confidence := c } = hasRawText r := rfl

theorem hasItems_update (r : OCRResult) (c : ℚ) :
    hasItems { r with confidence := c } = hasItems r := rfl

theorem success_update (r : OCRResult) (c : ℚ) :
    ({ r with confidence := c } : OCRResult).success = r.success := rfl

theorem jsOrN_num_isNum (a : Option ℚ) (q : ℚ) : (jsOrN a (JNum.num q)).isNum = true := by
  rcases a with _ | q'
  · rfl
  · by_cases h : q' = 0 <;> simp [jsOrN, h, JNum.isNum]

theorem unitPriceVal_ne_undef (price lineTotal qty : Option ℚ) :
    jsOrN price (jsDivN lineTotal (jsOrQ qty 1)) ≠ JNum.undef := by
  rcases price with _ | p
  · rcases lineTotal with _ | q <;> simp [jsOrN, jsDivN]
  · by_cases hp : p = 0
    · rcases lineTotal with _ | q <;> simp [jsOrN, jsDivN, hp]
    · simp [jsOrN, hp]

theorem unitPriceVal_isNum (price lineTotal qty : Option ℚ)
    (h : truthyQ price = true ∨ lineTotal ≠ none) :
    (jsOrN price (jsDivN lineTotal (jsOrQ qty 1))).isNum = true := by
  rcases price with _ | p
  · rcases lineTotal with _ | q
    · rcases h with h | h
      · simp [truthyQ] at h
      · exact absurd rfl h
    · simp [jsOrN, jsDivN, JNum.isNum]
  · by_cases hp : p = 0
    · rcases lineTotal with _ | q
      · rcases h with h | h
        · simp [truthyQ, hp] at h
        · exact absurd rfl h
      · simp [jsOrN, jsDivN, hp, JNum.isNum]
    · simp [jsOrN, hp, JNum.isNum]

theorem taxSlotFallback_ne_nan (taxItems : List SummaryItem) (i : ℕ) :
    taxSlotFallback taxItems i ≠ JNum.nan := by
  unfold taxSlotFallback
  repeat' split
  all_goals simp

theorem taxSlot_ne_nan (taxes : List ℚ) (taxItems : List SummaryItem) (i : ℕ) :
    taxSlot taxes taxItems i ≠ JNum.nan := by
  unfold taxSlot
  repeat' split
  · exact taxSlotFallback_ne_nan taxItems i
  · simp
  · exact taxSlotFallback_ne_nan taxItems i

theorem taxSlotFallback_isNum {taxItems : List SummaryItem}
    (h : ∀ it ∈ taxItems, it.lineTotal ≠ none) (i : ℕ) :
    (taxSlotFallback taxItems i).isNum = true := by
  rcases hgi : taxItems.get? i with _ | it
  · unfold taxSlotFallback
    rw [hgi]
    rfl
  · rcases hlt : it.lineTotal with _ | q
    · exact absurd hlt (h it (List.get?_mem hgi))
    · unfold taxSlotFallback
      rw [hgi]
      show (match it.lineTotal with
        | some q => JNum.num q
        | none => JNum.undef).isNum = true
      rw [hlt]
      rfl

theorem taxSlot_isNum (taxes : List ℚ) {taxItems : List SummaryItem}
    (h : ∀ it ∈ taxItems, it.lineTotal ≠ none) (i : ℕ) :
    (taxSlot taxes taxItems i).isNum = true := by
  rcases hgt : taxes.get? i with _ | q
  · unfold taxSlot
    rw [hgt]
    exact taxSlotFallback_isNum h i
  · unfold taxSlot
    rw [hgt]
    show (if q = 0 then taxSlotFallback taxItems i else JNum.num q).isNum = true
    by_cases hq : q = 0
    · rw [if_pos hq]
      exact taxSlotFallback_isNum h i
    · rw [if_neg hq]
      rfl

theorem filterTaxItems_mem :
    ∀ {l out : List SummaryItem}, filterTaxItems l = .ok out →
      ∀ x ∈ out, x ∈ l ∧ isTaxLine x = .ok true := by
  intro l
  induction l with
  | nil =>
      intro out h x hx
      simp only [filterTaxItems] at h
      injection h with h
      subst h
      simp at hx
  | cons item rest ih =>
      intro out h x hx
      unfold filterTaxItems at h
      cases hti : isTaxLine item with
      | error e => rw [hti] at h; exact absurd h (by simp)
      | ok keep =>
          rw [hti] at h
          cases hrest : filterTaxItems rest with
          | error e => rw [hrest] at h; exact absurd h (by simp)
          | ok tail =>
              rw [hrest] at h
              injection h with h
              subst h
              by_cases hk : keep = true
              · rw [if_pos hk] at hx
                rcases List.mem_cons.mp hx with rfl | hx2
                · exact ⟨List.mem_cons_self _ _, by rw [hti, hk]⟩
                · obtain ⟨hmem, htax⟩ := ih hrest x hx2
                  exact ⟨List.mem_cons_of_mem _ hmem, htax⟩
              · rw [if_neg hk] at hx
                obtain ⟨hmem, htax⟩ := ih hrest x hx
                exact ⟨List.mem_cons_of_mem _ hmem, htax⟩

theorem bool_false_of_not_true {b : Bool} (h : ¬ b = true) : b = false := by
  cases b
  · rfl
  · exact absurd rfl h

theorem validateOCRResult_errors (r : OCRResult) :
    (validateOCRResult r).errors =
      if !r.success then ["OCR processing failed"]
      else if !hasTotal r && !hasMerchant r && !hasRawText r && !hasItems r then
        ["No useful receipt data could be extracted"]
      else [] := by
  by_cases h1 : (!r.success) = true
  · simp [validateOCRResult, h1]
  · have h1' := bool_false_of_not_true h1
    by_cases h2 : (!hasTotal r && !hasMerchant r && !hasRawText r && !hasItems r) = true
    · simp [validateOCRResult, h1', h2]
    · simp [validateOCRResult, h1', bool_false_of_not_true h2]

/-! ### Claim theorems -/

/-- C1 (amended). For every OCR result accepted as successfully parsed
(`success = true`), the validator's verdict is invalid exactly when the
four signals are all absent under the code's thresholds: total absent or
not positive, merchant absent or blank after trimming, raw text of length
at most ten, and no items; in that case the errors contain the canonical
no-useful-data message. Any one signal present makes the verdict valid.
The spec's Milk example holds: a receipt whose only content is one item
(name Milk, line total 3) is valid, with exactly the warnings for the
missing total and merchant. (The claim as frozen says invalidity requires
the raw text to be zero-length; the code instead requires length > 10 for
the raw-text signal, see the counterexample.) -/
theorem validator_holistic_validity :
    (∀ r : OCRResult, r.success = true →
        (((validateOCRResult r).isValid = false) ↔
          (hasTotal r = false ∧ hasMerchant r = false ∧ hasRawText r = false ∧
            hasItems r = false)) ∧
        ((validateOCRResult r).isValid = false →
          "No useful receipt data could be extracted" ∈ (validateOCRResult r).errors)) ∧
      validateOCRResult milkOnlyResult =
        { isValid := true, errors := [],
          warnings := ["No monetary amounts detected", "Merchant name not found"] } := by
  constructor
  · intro r hs
    by_cases hC : (!hasTotal r && !hasMerchant r && !hasRawText r && !hasItems r) = true
    · have hval : validateOCRResult r =
          { isValid := false, errors := ["No useful receipt data could be extracted"],
            warnings := lowConfWarning r } := by
        unfold validateOCRResult
        rw [hs]
        simp [hC]
      obtain ⟨⟨⟨h1, h2⟩, h3⟩, h4⟩ :
          ((hasTotal r = false ∧ hasMerchant r = false) ∧ hasRawText r = false) ∧
            hasItems r = false := by
        simpa [Bool.and_eq_true, Bool.not_eq_true'] using hC
      rw [hval]
      exact ⟨by simp [h1, h2, h3, h4], by intro _; simp⟩
    · have hC' := bool_false_of_not_true hC
      have hval : validateOCRResult r =
          { isValid := true, errors := [],
            warnings := lowConfWarning r
              ++ (if !hasTotal r then ["No monetary amounts detected"] else [])
              ++ (if !hasMerchant r then ["Merchant name not found"] else [])
              ++ (if !hasItems r then ["No line items extracted"] else []) } := by
        unfold validateOCRResult
        rw [hs]
        simp [hC']
      rw [hval]
      constructor
      · constructor
        · intro hcon
          exact absurd hcon (by simp)
        · rintro ⟨h1, h2, h3, h4⟩
          rw [h1, h2, h3, h4] at hC'
          simp at hC'
      · intro hcon
        exact absurd hcon (by simp)
  · decide

/-- Witness for C1: the amended statement applied to the concrete Milk
receipt, discharging the `success = true` hypothesis there. -/
theorem validator_holistic_validity_witness :
    (((validateOCRResult milkOnlyResult).isValid = false) ↔
      (hasTotal milkOnlyResult = false ∧ hasMerchant milkOnlyResult = false ∧
        hasRawText milkOnlyResult = false ∧ hasItems milkOnlyResult = false)) ∧
    ((validateOCRResult milkOnlyResult).isValid = false →
      "No useful receipt data could be extracted" ∈ (validateOCRResult milkOnlyResult).errors) :=
  validator_holistic_validity.1 milkOnlyResult rfl

/-- Counterexample to C1 as frozen: the successfully parsed receipt of a
payload carrying only `address: "X"` has a nonempty (non-zero-length) raw
text, yet the validator rejects it, because the code requires raw text of
length strictly greater than ten rather than merely nonempty. -/
theorem validator_holistic_validity_cex :
    (parseTabScannerResponse addrOnlyData).success = true ∧
    (parseTabScannerResponse addrOnlyData).rawText.length ≠ 0 ∧
    (validateOCRResult (parseTabScannerResponse addrOnlyData)).isValid = false := by
  decide

/-- C2 (amended). The parser returns `success = false` exactly when the
payload's top-level result object is absent; a present-but-empty result
gives `success = true` with merchant, address, phone, date and time null,
but with the monetary fields defaulted to 0 (not null), no items, the
default confidence 0.9, and the three-newline raw-text skeleton. (The
claim as frozen says all receipt fields are null in that case; the
monetary fields are actually 0, see the counterexample.) -/
theorem parser_success_flag_and_empty_result :
    (∀ d : TabScannerData, ((parseTabScannerResponse d).success = false ↔ d.result = none)) ∧
      parseTabScannerResponse ⟨some emptyTSResult⟩ =
        { success := true, confidence := 0.9, rawText := "\n\n\n"
          receipt := { merchant := none, address := none, phone := none, date := none,
                       time := none, total := some 0, tax := some 0, subtotal := some 0,
                       items := [] } } := by
  constructor
  · intro d
    obtain ⟨res⟩ := d
    cases res with
    | none => simp [parseTabScannerResponse]
    | some r => simp [parseTabScannerResponse]
  · decide

/-- Counterexample to C2 as frozen: for a present-but-empty result the
parse succeeds but the receipt total is the number 0, not null. -/
theorem parser_empty_result_total_cex :
    (parseTabScannerResponse ⟨some emptyTSResult⟩).success = true ∧
    (parseTabScannerResponse ⟨some emptyTSResult⟩).receipt.total = some 0 ∧
    (parseTabScannerResponse ⟨some emptyTSResult⟩).receipt.total ≠ none := by
  decide

/-- C3 (confirmed). The amount parser is a total function into
`Option ℚ` (it never throws); it maps the spec's examples exactly
("$25.87" to 25.87, "€15.50" to 15.50, "  $12.34  " to 12.34, "" and
"invalid" to null), and every input containing no digit at all parses to
null. -/
theorem parseAmount_strips_and_parses :
    parseAmount "$25.87" = some 25.87 ∧
    parseAmount "€15.50" = some 15.50 ∧
    parseAmount "  $12.34  " = some 12.34 ∧
    parseAmount "" = none ∧
    parseAmount "invalid" = none ∧
    ∀ s : String, (∀ c ∈ s.toList, c.isDigit = false) → parseAmount s = none :=
  ⟨by decide, by decide, by decide, by decide, by decide, parseAmount_none_of_no_digit⟩

/-- Witness for C3: the universally quantified clause applied to the
digit-free input "abc", discharging its hypothesis by evaluation. -/
theorem parseAmount_strips_and_parses_witness : parseAmount "abc" = none :=
  parseAmount_strips_and_parses.2.2.2.2.2 "abc" (by decide)

/-- C4 (confirmed). Quality scoring computes `data_completeness` as the
rounded integer percentage of true checks among the six completeness
checks, and the overall confidence follows the exact two-stage blend
`round((min(95, completeness + 10) + ocr * 100) / 2)`; in particular five
true checks give completeness 83, and with OCR confidence 0.9 the overall
confidence is exactly 92. -/
theorem qualityMetrics_exact_formula :
    (∀ result : AIResultView,
        calculateQualityMetrics result =
          (specDataCompleteness (qualityChecks result),
           specOverallConfidence (specDataCompleteness (qualityChecks result))
             result.ocr_confidence)) ∧
      calculateQualityMetrics qualityExample = (83, 92) := by
  constructor
  · intro result
    have h6 : (qualityChecks result).length = 6 := rfl
    simp only [calculateQualityMetrics, specDataCompleteness, specOverallConfidence, h6,
      Nat.cast_ofNat]
  · decide

/-- C5 (amended). In the mapped record, `total_price_field` and every
item's `item_price` are always actual numbers (source value or the 0
default), and the two tax fields are never NaN and are numbers whenever
every tax-tagged summary line carries a line total; `unit_price` is never
undefined and is a number whenever the item has a truthy price or a line
total — but it is NaN for an item lacking both, because the code computes
`lineTotal / qty` with an undefined numerator (see the counterexample to
the claim as frozen). -/
theorem mapper_money_fields_amended :
    (∀ (item : TSLineItem) (m : MappedItem), mapItem item = .ok m →
        m.item_price.isNum = true ∧ m.unit_price ≠ JNum.undef ∧
        ((truthyQ item.price = true ∨ item.lineTotal ≠ none) → m.unit_price.isNum = true)) ∧
    (∀ (r : TSResult) (t : JNum × JNum), parseTaxes r = .ok t →
        t.1 ≠ JNum.nan ∧ t.2 ≠ JNum.nan ∧
        ((∀ it ∈ r.summaryItems.getD [], isTaxLine it = .ok true → it.lineTotal ≠ none) →
          t.1.isNum = true ∧ t.2.isNum = true)) ∧
    (∀ (d : Option TabScannerData) (m : MappedData), mapToCustomStructure d = .ok m →
        m.total_price_field.isNum = true) := by
  refine ⟨?_, ?_, ?_⟩
  · intro item m h
    unfold mapItem at h
    cases hcat : categorizeItem (jsOrS item.descClean item.desc) with
    | error e => rw [hcat] at h; exact absurd h (by simp)
    | ok cat =>
        rw [hcat] at h
        injection h with h
        subst h
        exact ⟨jsOrN_num_isNum _ _, unitPriceVal_ne_undef _ _ _,
          fun hp => unitPriceVal_isNum _ _ _ hp⟩
  · intro r t h
    unfold parseTaxes at h
    cases hft : filterTaxItems (r.summaryItems.getD []) with
    | error e => rw [hft] at h; exact absurd h (by simp)
    | ok taxItems =>
        rw [hft] at h
        injection h with h
        subst h
        refine ⟨taxSlot_ne_nan _ _ _, taxSlot_ne_nan _ _ _, fun hall => ?_⟩
        have h' : ∀ it ∈ taxItems, it.lineTotal ≠ none := fun it hit =>
          hall it (filterTaxItems_mem hft it hit).1 (filterTaxItems_mem hft it hit).2
        exact ⟨taxSlot_isNum _ h' 0, taxSlot_isNum _ h' 1⟩
  · intro d m h
    unfold mapToCustomStructure at h
    split at h
    · exact absurd h (by simp)
    · split at h
      · exact absurd h (by simp)
      · split at h
        · exact absurd h (by simp)
        · injection h with h
          subst h
          exact jsOrN_num_isNum _ _

/-- Witness for C5: the amended statement applied to a well-formed item, a
summary with a line-total-less non-tax line next to a tax line (so the
tax-tagged side condition is exercised non-vacuously), and a payload
carrying only a total, with every hypothesis discharged by evaluation. -/
theorem mapper_money_fields_witness :
    (oliveOilMapped.item_price.isNum = true ∧ oliveOilMapped.unit_price ≠ JNum.undef ∧
      oliveOilMapped.unit_price.isNum = true) ∧
    (JNum.num 0.62 ≠ JNum.nan ∧
      (JNum.num 0.62).isNum = true ∧ (JNum.num 0).isNum = true) ∧
    totalOnlyMapped.total_price_field.isNum = true := by
  refine ⟨?_, ?_, ?_⟩
  · have h := mapper_money_fields_amended.1 oliveOilItem oliveOilMapped (by decide)
    exact ⟨h.1, h.2.1, h.2.2 (Or.inr (by decide))⟩
  · have h := mapper_money_fields_amended.2.1 mixedSummaryResult
      (JNum.num 0.62, JNum.num 0) (by decide)
    have htagged : ∀ it ∈ mixedSummaryResult.summaryItems.getD [],
        isTaxLine it = Except.ok true → it.lineTotal ≠ none := by
      intro it hit
      have hit' : it ∈
          [({ lineType := some "Subtotal", desc := some "SUBTOTAL",
              lineTotal := none } : SummaryItem),
           { lineType := some "Tax", desc := some "TAX", lineTotal := some 0.62 }] := hit
      rcases List.mem_cons.mp hit' with rfl | hit2
      · intro hcon
        exact absurd hcon (by decide)
      · rcases List.mem_cons.mp hit2 with rfl | hit3
        · intro _
          decide
        · simp at hit3
    have hnums := h.2.2 htagged
    exact ⟨h.1, hnums.1, hnums.2⟩
  · exact mapper_money_fields_amended.2.2 totalOnlyData totalOnlyMapped (by decide)

/-- Counterexample to C5 as frozen: an item with a description but neither
price nor line total maps to a record whose `unit_price` is NaN. -/
theorem mapper_unit_price_nan_cex :
    (mapItem pricelessItem).map (fun m => m.unit_price) = Except.ok JNum.nan := by
  decide

/-- C6 (amended). One application of `normalizeBrandName` either reaches a
fixed point (`f (f x) = f x`) or lands on the canonical alias target
"Trader Joes"; in particular the second iterate is always a fixed point.
Idempotence as frozen fails exactly when stripping quote characters
creates a new alias-table match (see the counterexample). -/
theorem normalizeBrandName_iterate (x : String) :
    normalizeBrandName (normalizeBrandName x) = normalizeBrandName x ∨
      normalizeBrandName (normalizeBrandName x) = "Trader Joes" := by
  by_cases h1 : matchesBrandAlias x = true
  · right
    have hx : normalizeBrandName x = "Trader Joes" := by
      unfold normalizeBrandName
      rw [if_pos h1]
    rw [hx]
    decide
  · have h1' := bool_false_of_not_true h1
    have hx : normalizeBrandName x = stripQuotes x := by
      unfold normalizeBrandName
      rw [h1']
      simp
    by_cases h2 : matchesBrandAlias (stripQuotes x) = true
    · right
      rw [hx]
      unfold normalizeBrandName
      rw [if_pos h2]
    · left
      have h2' := bool_false_of_not_true h2
      rw [hx]
      unfold normalizeBrandName
      rw [h2']
      simp [stripQuotes_idem]

/-- Counterexample to C6 as frozen: for the brand string
`trader joe"s` (with a double quote before the final s) the first
application strips the quote, producing `trader joes`, and the second
application then matches the alias table and returns "Trader Joes", so
`f (f x) ≠ f x`. -/
theorem normalizeBrandName_not_idempotent_cex :
    normalizeBrandName (normalizeBrandName quotedBrand) ≠ normalizeBrandName quotedBrand := by
  decide

/-- C7 (confirmed). Item type-code assignment is total into the fixed
seven-value set: for every line item, including items with a missing or
empty description, `generateItemTypeCode` returns a member of
{PROD, DAIRY, BAKERY, MEAT, PANTRY, FEE, MISC} — its ordered keyword
cascade with first match winning and MISC as the default — and, being a
total `String`-valued function, never null or out of set. -/
theorem generateItemTypeCode_total (item : TSLineItem) :
    generateItemTypeCode item ∈ ["PROD", "DAIRY", "BAKERY", "MEAT", "PANTRY", "FEE", "MISC"] := by
  simp only [generateItemTypeCode]
  repeat' split
  all_goals simp

/-- C8 (confirmed). Tax decomposition fills exactly two output slots: with
a source tax list of two or more entries the slots are its first two
values in order and the third and later values are silently dropped; with
no tax data at all both slots default to 0; with no tax list the slots
come from the first two tax-tagged summary lines in order (a third is
dropped); and the spec's example [0.22, 0.22, 0.05] maps to
(0.22, 0.22). -/
theorem parseTaxes_two_slot_cap :
    (∀ (t1 t2 : ℚ) (rest : List ℚ),
        parseTaxes { emptyTSResult with taxes := some (t1 :: t2 :: rest) }
          = .ok (JNum.num t1, JNum.num t2)) ∧
      parseTaxes emptyTSResult = .ok (JNum.num 0, JNum.num 0) ∧
      (∀ a b c : ℚ,
        parseTaxes { emptyTSResult with
            summaryItems := some [{ lineType := some "Tax", desc := some "TAX A", lineTotal := some a },
              { lineType := some "Tax", desc := some "TAX B", lineTotal := some b },
              { lineType := some "Tax", desc := some "TAX C", lineTotal := some c }] }
          = .ok (JNum.num a, JNum.num b)) ∧
      parseTaxes threeTaxResult = .ok (JNum.num 0.22, JNum.num 0.22) := by
  refine ⟨?_, by decide, ?_, by decide⟩
  · intro t1 t2 rest
    by_cases h1 : t1 = 0 <;> by_cases h2 : t2 = 0 <;>
      simp [parseTaxes, filterTaxItems, taxSlot, taxSlotFallback, emptyTSResult, h1, h2]
  · intro a b c
    simp [parseTaxes, filterTaxItems, isTaxLine, taxSlot, taxSlotFallback, emptyTSResult]

/-- C9 (code bug). The mapper is supposed never to throw on
malformed-but-present data, and its sibling `generateItemTypeCode` indeed
guards the missing-description case with a default empty string — but
`categorizeItem` reads `itemName.toLowerCase()` unguarded, so a present
result whose line item has neither `desc` nor `descClean` makes
`mapToCustomStructure` throw a TypeError instead of degrading the field
to null. This theorem evaluates the embedded mapper at that failing
input. -/
theorem mapper_throws_on_missing_desc :
    mapToCustomStructure missingDescData
      = Except.error "TypeError: Cannot read properties of undefined (reading toLowerCase)" := by
  decide

/-- C10 (amended). For every OCR result with `success = true` and
confidence below 0.5 the validator adds the low-confidence warning, and
the validator's errors never depend on the confidence value at all (so
low confidence never produces an error); when `success = false`, however,
validation returns early and no low-confidence warning is added (see the
counterexample to the claim as frozen, which demanded the warning
regardless of the success flag). -/
theorem low_confidence_always_warns :
    (∀ r : OCRResult, r.success = true → r.confidence < 0.5 →
        "Low OCR confidence score" ∈ (validateOCRResult r).warnings) ∧
      ∀ (r : OCRResult) (c₁ c₂ : ℚ),
        (validateOCRResult { r with confidence := c₁ }).errors
          = (validateOCRResult { r with confidence := c₂ }).errors := by
  constructor
  · intro r hs hc
    have hw : lowConfWarning r = ["Low OCR confidence score"] := by
      unfold lowConfWarning
      rw [if_pos hc]
    by_cases hC : (!hasTotal r && !hasMerchant r && !hasRawText r && !hasItems r) = true
    · have hval : validateOCRResult r =
          { isValid := false, errors := ["No useful receipt data could be extracted"],
            warnings := lowConfWarning r } := by
        unfold validateOCRResult
        rw [hs]
        simp [hC]
      rw [hval, hw]
      simp
    · have hC' := bool_false_of_not_true hC
      have hval : validateOCRResult r =
          { isValid := true, errors := [],
            warnings := lowConfWarning r
              ++ (if !hasTotal r then ["No monetary amounts detected"] else [])
              ++ (if !hasMerchant r then ["Merchant name not found"] else [])
              ++ (if !hasItems r then ["No line items extracted"] else []) } := by
        unfold validateOCRResult
        rw [hs]
        simp [hC']
      rw [hval, hw]
      simp
  · intro r c1 c2
    simp only [validateOCRResult_errors, success_update, hasTotal_update, hasMerchant_update,
      hasRawText_update, hasItems_update]

/-- Witness for C10: the amended statement applied to a successful
low-confidence result (and to two concrete confidence values for the
error-independence clause), discharging each hypothesis by evaluation. -/
theorem low_confidence_always_warns_witness :
    "Low OCR confidence score" ∈ (validateOCRResult lowConfResult).warnings ∧
    (validateOCRResult { lowConfResult with confidence := 0.1 }).errors
      = (validateOCRResult { lowConfResult with confidence := 0.9 }).errors :=
  ⟨low_confidence_always_warns.1 lowConfResult rfl (by decide),
    low_confidence_always_warns.2 lowConfResult 0.1 0.9⟩

/-- Counterexample to C10 as frozen: a failed OCR result with confidence
0.3 gets no low-confidence warning, because the validator returns early on
`success = false` before the confidence check runs. -/
theorem low_confidence_skipped_on_failure_cex :
    failedLowConfResult.confidence < 0.5 ∧
    "Low OCR confidence score" ∉ (validateOCRResult failedLowConfResult).warnings := by
  decide

end Grocereez
